import Mathlib

/-!
Shallow embedding of the showcase-agent frontend chat client
(`src/frontend/src`): the message data model, the chat-history pairing
function `getLast3Pairs`, session-storage initialization, the `useChat`
submit handler, the `FileUpload` validation/upload pipeline, and the
app-level authentication wiring (`App`, `ChatInterface`).

Machine-level concerns (React scheduling, the DOM, actual HTTP) are out of
scope; network calls are modelled by passing the response/outcome as an
explicit argument, and browser storage cells are explicit values.
-/

namespace ShowcaseAgent

/-- `Message.role` field: the TS union `"user" | "assistant"`. -/
inductive Role where
  | user
  | assistant
deriving DecidableEq, Repr

/-- The `Message` interface of `types/chat.ts`:
`{ role, content, sources?: string[] }`.  The optional `sources` field is
an `Option`. -/
structure Message where
  role : Role
  content : String
  sources : Option (List String) := none
deriving DecidableEq, Repr

instance : Inhabited Message := ⟨⟨Role.assistant, "", none⟩⟩

/-- The `{ query, answer }` records produced by `getLast3Pairs` and sent as
`previous_messages` to `/query`. -/
structure QAPair where
  query : String
  answer : String
deriving DecidableEq, Repr

/-- The body of the `for` loop in `getLast3Pairs`: at index `i`, push a
pair when `msgs[i].role === "user" && msgs[i+1].role === "assistant"`. -/
def pairAt (msgs : List Message) (i : Nat) : Option QAPair :=
  if (msgs.getD i default).role = Role.user ∧
      (msgs.getD (i + 1) default).role = Role.assistant then
    some ⟨(msgs.getD i default).content, (msgs.getD (i + 1) default).content⟩
  else
    none

/-- `utils/chat.ts` `getLast3Pairs`.  The `for (let i = 0; i < msgs.length - 1; i++)`
loop is the `filterMap` of `pairAt` over `List.range (msgs.length - 1)`;
`pairs.slice(-3)` keeps the last three elements, i.e. drops
`pairs.length - 3` from the front. -/
def getLast3Pairs (msgs : List Message) : List QAPair :=
  let pairs := (List.range (msgs.length - 1)).filterMap (pairAt msgs)
  pairs.drop (pairs.length - 3)

/-- Spec-side reading of the pairing rule: scan the list in order and
recognize a pair exactly when a user message is immediately followed by an
assistant message. -/
def adjacentPairs : List Message → List QAPair
  | a :: b :: rest =>
      (if a.role = Role.user ∧ b.role = Role.assistant then
        [⟨a.content, b.content⟩]
      else []) ++ adjacentPairs (b :: rest)
  | _ => []

/-- Spec-side reading of `slice(-3)`: the last `n` elements in original
order. -/
def lastN (n : Nat) (l : List α) : List α :=
  (l.reverse.take n).reverse

-- `constants/chat.ts`
def AUTH_TOKEN_KEY : String := "showcase_agent_token"
def SESSION_STORAGE_KEY : String := "chat_messages"
def WELCOME_TEXT : String := "Upload documents to get started"
def UPLOAD_SUCCESS_TEXT : String := "File upload successful. Start asking questions!"

/-- The fallback value of `loadMessagesFromStorage`:
`[{ role: "assistant", content: WELCOME_TEXT }]`'s single element. -/
def welcomeMessage : Message := ⟨Role.assistant, WELCOME_TEXT, none⟩

/-- What `loadMessagesFromStorage` can observe in the sessionStorage cell:
`absent` covers `getItem` returning `null` or the empty string (both falsy
in the `if (s)` guard); `malformed` covers `JSON.parse` throwing;
`nonArrayValue` covers a parse result failing `Array.isArray`;
`arrayValue ms` is a parsed JSON array of message objects. -/
inductive StoredValue where
  | absent
  | malformed
  | nonArrayValue
  | arrayValue (ms : List Message)
deriving DecidableEq, Repr

/-- `hooks/useChat.ts` `loadMessagesFromStorage`: return the parsed array
when it is a non-empty array, otherwise (nothing stored, parse failure,
non-array, or empty array) the singleton welcome message. -/
def loadMessagesFromStorage : StoredValue → List Message
  | StoredValue.arrayValue ms =>
      if ms.length > 0 then ms else [welcomeMessage]
  | StoredValue.absent => [welcomeMessage]
  | StoredValue.malformed => [welcomeMessage]
  | StoredValue.nonArrayValue => [welcomeMessage]

/-- The persistence effect (`sessionStorage.setItem(KEY, JSON.stringify(messages))`):
`JSON.stringify` of an array of message objects stores a JSON array of those
objects, so a successful write leaves `arrayValue ms` in the cell. -/
def storeMessages (ms : List Message) : StoredValue :=
  StoredValue.arrayValue ms

/-- `String.prototype.trim`, as used in `input.trim()`: strip leading and
trailing whitespace.  Implemented structurally (drop whitespace from both
ends of the character list) so that it evaluates on concrete inputs. -/
def jsTrim (s : String) : String :=
  String.mk (((s.toList.dropWhile Char.isWhitespace).reverse.dropWhile
    Char.isWhitespace).reverse)

/-- One entry of an array-shaped `detail` in a `/query` error body
(`string | Array<{ msg?: string }>`): either a plain string or an object
whose `msg` field may be absent. -/
inductive ErrItem where
  | str (s : String)
  | obj (msg : Option String)
deriving DecidableEq, Repr

/-- The `detail` field of an error response body. -/
inductive ErrDetail where
  | strDetail (s : String)
  | listDetail (items : List ErrItem)
deriving DecidableEq, Repr

/-- `typeof e === "string" ? e : e.msg || String(e)`: a string entry is kept
as is; an object entry contributes its `msg` when that is truthy
(present and non-empty), else `String(e)`, which for a plain object is
`"[object Object]"`. -/
def errItemText : ErrItem → String
  | ErrItem.str s => s
  | ErrItem.obj (some m) => if m = "" then "[object Object]" else m
  | ErrItem.obj none => "[object Object]"

/-- `hooks/useChat.ts` `parseError`:
`raw = error.response?.data?.detail ?? error.message ?? "An error occurred"`,
then an array `raw` is mapped through `errItemText` and joined with `" "`,
and a non-array `raw` is returned via `String(raw)` (identity on strings). -/
def parseError (detail : Option ErrDetail) (message : Option String) : String :=
  match detail with
  | some (ErrDetail.strDetail s) => s
  | some (ErrDetail.listDetail items) =>
      String.intercalate " " (items.map errItemText)
  | none =>
      match message with
      | some m => m
      | none => "An error occurred"

/-- The outcome of the awaited `axios.post` to `/query`: either the parsed
response data (`answer?`, `sources?` — `none` for the sources field also
covers a present non-array value, which `Array.isArray` rejects), or a
thrown error carrying `response?.status`, `response?.data?.detail` and
`message`. -/
inductive QueryOutcome where
  | success (answer : Option String) (sources : Option (List String))
  | failure (status : Option Nat) (detail : Option ErrDetail) (message : Option String)
deriving DecidableEq, Repr

/-- The chat state managed by `useChat`: `messages`, `input`, `loading`,
`error`. -/
structure ChatState where
  messages : List Message
  input : String
  loading : Bool
  error : Option String
deriving DecidableEq, Repr

/-- Observable effects of one `handleSubmit` call: whether a network request
to `/query` was issued, and whether `onUnauthorized` was invoked. -/
structure SubmitEffects where
  requested : Bool
  calledUnauthorized : Bool
deriving DecidableEq, Repr

/-- `hooks/useChat.ts` `handleSubmit`, with the awaited `/query` outcome
passed explicitly and `hasCallback` standing for `onUnauthorized` being
provided.  `if (!input.trim() || loading) return;` guards first; then the
input is cleared, the error banner reset, the trimmed user message appended
optimistically and `loading` set.  On success an assistant message with
`data.answer ?? ""` and normalized sources is appended; on a 401 failure
with a callback the callback is invoked and the handler returns (the
`finally` still clears `loading`); on any other failure `parseError`'s
message becomes the error banner and is appended as
`"Error: " + msg`. -/
def handleSubmit (st : ChatState) (hasCallback : Bool) (outcome : QueryOutcome) :
    ChatState × SubmitEffects :=
  if jsTrim st.input = "" ∨ st.loading = true then
    (st, ⟨false, false⟩)
  else
    let userMessage := jsTrim st.input
    let st1 : ChatState :=
      { st with input := "", error := none, loading := true,
                messages := st.messages ++ [⟨Role.user, userMessage, none⟩] }
    match outcome with
    | QueryOutcome.success answer sources =>
        ({ st1 with
            messages := st1.messages ++
              [⟨Role.assistant, answer.getD "", some (sources.getD [])⟩],
            loading := false },
         ⟨true, false⟩)
    | QueryOutcome.failure status detail message =>
        if status = some 401 ∧ hasCallback = true then
          ({ st1 with loading := false }, ⟨true, true⟩)
        else
          let msg := parseError detail message
          ({ st1 with
              error := some msg,
              messages := st1.messages ++
                [⟨Role.assistant, "Error: " ++ msg, none⟩],
              loading := false },
           ⟨true, false⟩)

/-- A browser `File` as `FileUpload.tsx` inspects it: its `name` and its
MIME `type` (the empty string when the browser reports none). -/
structure JsFile where
  name : String
  type : String
deriving DecidableEq, Repr

/-- The `supportedTypes` array of `FileUpload.tsx`. -/
def supportedTypes : List String :=
  ["application/pdf",
   "application/vnd.openxmlformats-officedocument.wordprocessingml.document",
   "application/msword"]

/-- `String.prototype.split` with a one-character separator, implemented
structurally on the character list (JS semantics: `"".split(".") = [""]`,
`"a.".split(".") = ["a", ""]`). -/
def jsSplitChars (sep : Char) : List Char → List (List Char)
  | [] => [[]]
  | c :: cs =>
      match jsSplitChars sep cs with
      | [] => [[]]
      | seg :: rest =>
          if c = sep then [] :: seg :: rest else (c :: seg) :: rest

def jsSplit (sep : Char) (s : String) : List String :=
  (jsSplitChars sep s.toList).map String.mk

/-- `String.prototype.toLowerCase` (ASCII range, as the extensions compared
against are ASCII). -/
def jsToLower (s : String) : String :=
  String.mk (s.toList.map Char.toLower)

/-- `file.name.split(".").pop()?.toLowerCase()`: `split` never yields an
empty array, so `pop` always returns the last segment. -/
def fileExt (f : JsFile) : Option String :=
  (jsSplit '.' f.name).getLast?.map jsToLower

/-- The per-file acceptance test of the `for` loop in `handleUpload`:
`supportedTypes.includes(file.type) || ext === "pdf" || ext === "docx" || ext === "doc"`. -/
def isValidFile (f : JsFile) : Bool :=
  supportedTypes.contains f.type ∨
    fileExt f = some "pdf" ∨ fileExt f = some "docx" ∨ fileExt f = some "doc"

/-- The message passed to `onUploadError` when no file passes the filter. -/
def UPLOAD_VALIDATION_ERROR : String :=
  "Please upload PDF or Word documents (.pdf, .docx, .doc)"

/-- What the front half of `FileUpload.tsx` `handleUpload` does before any
response arrives: `noop` when `files` is `null` or empty, `rejected` when
the filtered list is empty (validation error, no request), and otherwise a
POST of the valid files with the `Authorization` header
`` `Bearer ${token}` `` — built unconditionally, so a missing token yields
the literal `"Bearer null"`. -/
inductive UploadAction where
  | noop
  | rejected (errMsg : String)
  | post (files : List JsFile) (authHeader : String)
deriving DecidableEq, Repr

def uploadAction (files : Option (List JsFile)) (token : Option String) :
    UploadAction :=
  match files with
  | none => UploadAction.noop
  | some fs =>
      if fs.length = 0 then UploadAction.noop
      else
        let validFiles := fs.filter isValidFile
        if validFiles.length = 0 then
          UploadAction.rejected UPLOAD_VALIDATION_ERROR
        else
          UploadAction.post validFiles
            ("Bearer " ++ (match token with | some t => t | none => "null"))

/-- The `Authorization` header an upload action carries, if it issues a
request at all. -/
def uploadAuthHeader : UploadAction → Option String
  | UploadAction.post _ h => some h
  | _ => none

/-- The `UploadResult` interface of `FileUpload.tsx`. -/
structure UploadResult where
  message : String
  files_processed : Nat
  chunks_processed : Nat
  filenames : List String
deriving DecidableEq, Repr

/-- The awaited `fetch` response for `/upload`: `response.ok` with a parsed
`UploadResult`, or a non-ok response with its `status`, `statusText`, and
the `detail` of its JSON body (`none` also covers a body that fails to
parse, which the code replaces with `{}`). -/
inductive UploadOutcome where
  | success (r : UploadResult)
  | failure (status : Nat) (statusText : String) (detail : Option String)
deriving DecidableEq, Repr

/-- `errorData.detail || \x60Upload failed: ${response.statusText}\x60`:
the backend detail when truthy, else the generic message. -/
def uploadErrorMessage (statusText : String) (detail : Option String) : String :=
  match detail with
  | some d => if d = "" then "Upload failed: " ++ statusText else d
  | none => "Upload failed: " ++ statusText

/-- App-level state: the persistent token cell (`localStorage[AUTH_TOKEN_KEY]`),
the `isAuthenticated` flag of `App`, the chat state of `useChat`, and the
`documentsLoaded` flag of `ChatInterface`. -/
structure AppState where
  token : Option String
  authed : Bool
  chat : ChatState
  docsLoaded : Bool
deriving DecidableEq, Repr

/-- `App.handleUnauthorized`: remove the stored token and leave the
authenticated view. -/
def handleUnauthorized (a : AppState) : AppState :=
  { a with token := none, authed := false }

/-- One chat submit at app level: `useChat` is wired with
`onUnauthorized = handleUnauthorized`, so whenever `handleSubmit` invokes
the callback the token is cleared and the app de-authenticates. -/
def appSubmit (a : AppState) (outcome : QueryOutcome) : AppState :=
  let res := handleSubmit a.chat true outcome
  let a1 := { a with chat := res.1 }
  if res.2.calledUnauthorized then handleUnauthorized a1 else a1

/-- One upload attempt at app level, from file selection to the settled
response.  `ChatInterface.handleUploadComplete` replaces the message list
with the single upload-success assistant message and marks documents
loaded; `ChatInterface.handleUploadError` records the message as the error
banner.  `FileUpload` itself never inspects the status code, so a non-ok
response — 401 included — only reaches `onUploadError`. -/
def appUpload (a : AppState) (files : Option (List JsFile))
    (outcome : UploadOutcome) : AppState :=
  match uploadAction files a.token with
  | UploadAction.noop => a
  | UploadAction.rejected m =>
      { a with chat := { a.chat with error := some m } }
  | UploadAction.post _ _ =>
      match outcome with
      | UploadOutcome.success _ =>
          { a with docsLoaded := true,
                   chat := { a.chat with
                     messages := [⟨Role.assistant, UPLOAD_SUCCESS_TEXT, none⟩] } }
      | UploadOutcome.failure _ statusText detail =>
          { a with chat := { a.chat with
              error := some (uploadErrorMessage statusText detail) } }

/-- `ChatInterface.handleResetDocs`: reset the documents flag, replace the
message list with the welcome sentinel, clear the error banner. -/
def handleResetDocs (a : AppState) : AppState :=
  { a with docsLoaded := false,
           chat := { a.chat with
             messages := [welcomeMessage], error := none } }

/-- The initial app state: `isAuthenticated` is the presence of the stored
token, and `useChat` initializes messages from session storage. -/
def initialAppState (sv : StoredValue) (token : Option String) : AppState :=
  { token := token,
    authed := token.isSome,
    chat := { messages := loadMessagesFromStorage sv, input := "",
              loading := false, error := none },
    docsLoaded := false }

/-- The user-driven events that mutate app state. -/
inductive AppEvent where
  | setInputEv (s : String)
  | submitEv (outcome : QueryOutcome)
  | uploadEv (files : Option (List JsFile)) (outcome : UploadOutcome)
  | resetDocsEv
  | logoutEv

/-- App-level transition function. `logoutEv` covers both the log-out
button and a forced `handleUnauthorized`. -/
def appStep (a : AppState) : AppEvent → AppState
  | AppEvent.setInputEv s => { a with chat := { a.chat with input := s } }
  | AppEvent.submitEv outcome => appSubmit a outcome
  | AppEvent.uploadEv files outcome => appUpload a files outcome
  | AppEvent.resetDocsEv => handleResetDocs a
  | AppEvent.logoutEv => handleUnauthorized a

/-- States reachable from some initial state by user events. -/
inductive Reachable : AppState → Prop where
  | init (sv : StoredValue) (token : Option String) :
      Reachable (initialAppState sv token)
  | step {a : AppState} (e : AppEvent) : Reachable a → Reachable (appStep a e)

/-! ### Lemmas about the pairing scan -/

theorem pairAt_cons_succ (m : Message) (msgs : List Message) (i : Nat) :
    pairAt (m :: msgs) (i + 1) = pairAt msgs i := by
  simp only [pairAt, List.getD_cons_succ]

theorem scan_eq_adjacentPairs (msgs : List Message) :
    (List.range (msgs.length - 1)).filterMap (pairAt msgs) = adjacentPairs msgs := by
  induction msgs with
  | nil => rfl
  | cons a rest ih =>
    cases rest with
    | nil => rfl
    | cons b rest' =>
      have hlen : (a :: b :: rest' : List Message).length - 1 = rest'.length + 1 := by
        simp
      rw [hlen, List.range_succ_eq_map, List.filterMap_cons, List.filterMap_map]
      have hshift : pairAt (a :: b :: rest') ∘ Nat.succ = pairAt (b :: rest') := by
        funext i
        exact pairAt_cons_succ a (b :: rest') i
      have hlen2 : (b :: rest' : List Message).length - 1 = rest'.length := by simp
      rw [hlen2] at ih
      rw [hshift, ih]
      by_cases h : a.role = Role.user ∧ b.role = Role.assistant
      · simp [pairAt, adjacentPairs, h]
      · simp [pairAt, adjacentPairs, h]

theorem drop_length_sub_eq_lastN (l : List α) (n : Nat) :
    l.drop (l.length - n) = lastN n l := by
  rw [lastN, ← List.rtake_eq_reverse_take_reverse]
  rfl

/-! ### Case lemmas for the submit handler -/

theorem handleSubmit_guard_eq (st : ChatState) (cb : Bool) (o : QueryOutcome)
    (h : jsTrim st.input = "" ∨ st.loading = true) :
    handleSubmit st cb o = (st, ⟨false, false⟩) := by
  simp only [handleSubmit]
  rw [if_pos h]

theorem handleSubmit_success_eq (st : ChatState) (cb : Bool)
    (answer : Option String) (sources : Option (List String))
    (hg : ¬(jsTrim st.input = "" ∨ st.loading = true)) :
    handleSubmit st cb (QueryOutcome.success answer sources) =
      ({ messages := st.messages ++
            [⟨Role.user, jsTrim st.input, none⟩,
             ⟨Role.assistant, answer.getD "", some (sources.getD [])⟩],
         input := "", loading := false, error := none }, ⟨true, false⟩) := by
  simp only [handleSubmit]
  rw [if_neg hg]
  simp [List.append_assoc]

theorem handleSubmit_unauthorized_eq (st : ChatState) (cb : Bool)
    (status : Option Nat) (detail : Option ErrDetail) (message : Option String)
    (hg : ¬(jsTrim st.input = "" ∨ st.loading = true))
    (h401 : status = some 401 ∧ cb = true) :
    handleSubmit st cb (QueryOutcome.failure status detail message) =
      ({ messages := st.messages ++ [⟨Role.user, jsTrim st.input, none⟩],
         input := "", loading := false, error := none }, ⟨true, true⟩) := by
  simp only [handleSubmit]
  rw [if_neg hg]
  simp only [if_pos h401]

theorem handleSubmit_error_eq (st : ChatState) (cb : Bool)
    (status : Option Nat) (detail : Option ErrDetail) (message : Option String)
    (hg : ¬(jsTrim st.input = "" ∨ st.loading = true))
    (h401 : ¬(status = some 401 ∧ cb = true)) :
    handleSubmit st cb (QueryOutcome.failure status detail message) =
      ({ messages := st.messages ++
            [⟨Role.user, jsTrim st.input, none⟩,
             ⟨Role.assistant, "Error: " ++ parseError detail message, none⟩],
         input := "", loading := false,
         error := some (parseError detail message) }, ⟨true, false⟩) := by
  simp only [handleSubmit]
  rw [if_neg hg]
  simp only [if_neg h401]
  simp [List.append_assoc]

/-! ### Claim theorems -/

/-- C1: `getLast3Pairs` returns exactly the adjacent (user, assistant)
pairs found by scanning the list in order, keeping only the last three in
their original order; in particular on a list of the shape
`[U1, A1, U2, A2, U3, A3, U4]` it returns the three pairs
`[(U1, A1), (U2, A2), (U3, A3)]`. -/
theorem getLast3Pairs_correct :
    (∀ msgs : List Message, getLast3Pairs msgs = lastN 3 (adjacentPairs msgs)) ∧
    getLast3Pairs
      [⟨Role.user, "u1", none⟩, ⟨Role.assistant, "a1", none⟩,
       ⟨Role.user, "u2", none⟩, ⟨Role.assistant, "a2", none⟩,
       ⟨Role.user, "u3", none⟩, ⟨Role.assistant, "a3", none⟩,
       ⟨Role.user, "u4", none⟩] =
      [⟨"u1", "a1"⟩, ⟨"u2", "a2"⟩, ⟨"u3", "a3"⟩] := by
  constructor
  · intro msgs
    simp only [getLast3Pairs]
    rw [scan_eq_adjacentPairs, drop_length_sub_eq_lastN]
  · rfl

/-- C4: an absent cell, an unparsable cell, a parsed non-array value and a
parsed empty array all make session initialization return exactly one
assistant message carrying the welcome text. -/
theorem loadMessagesFromStorage_default :
    loadMessagesFromStorage StoredValue.absent =
      [⟨Role.assistant, WELCOME_TEXT, none⟩] ∧
    loadMessagesFromStorage StoredValue.malformed =
      [⟨Role.assistant, WELCOME_TEXT, none⟩] ∧
    loadMessagesFromStorage StoredValue.nonArrayValue =
      [⟨Role.assistant, WELCOME_TEXT, none⟩] ∧
    loadMessagesFromStorage (StoredValue.arrayValue []) =
      [⟨Role.assistant, WELCOME_TEXT, none⟩] :=
  ⟨rfl, rfl, rfl, rfl⟩

/-- C5 counterexample: the empty message list does not round-trip — storing
`[]` succeeds, but reloading yields the welcome singleton, not `[]`. -/
theorem storage_roundtrip_empty_cex :
    loadMessagesFromStorage (storeMessages []) = [welcomeMessage] ∧
    loadMessagesFromStorage (storeMessages []) ≠ ([] : List Message) :=
  ⟨rfl, by decide⟩

/-- C5 (amended): every non-empty message list round-trips through session
storage unchanged — same length, roles, contents and sources. -/
theorem storage_roundtrip_nonempty (ms : List Message) (h : ms ≠ []) :
    loadMessagesFromStorage (storeMessages ms) = ms := by
  simp only [storeMessages, loadMessagesFromStorage]
  rw [if_pos (List.length_pos.mpr h)]

theorem storage_roundtrip_nonempty_witness :
    loadMessagesFromStorage (storeMessages [welcomeMessage]) = [welcomeMessage] :=
  storage_roundtrip_nonempty [welcomeMessage] (by decide)

/-- C9: a blank (empty after trimming) input or an in-flight request makes
submit leave the whole chat state unchanged and issue no network request
(and it does not invoke the unauthorized callback either). -/
theorem submit_blank_or_loading_noop (st : ChatState) (cb : Bool)
    (o : QueryOutcome) (h : jsTrim st.input = "" ∨ st.loading = true) :
    handleSubmit st cb o = (st, ⟨false, false⟩) :=
  handleSubmit_guard_eq st cb o h

theorem submit_blank_or_loading_noop_witness :
    handleSubmit ⟨[welcomeMessage], "   ", false, none⟩ true
        (QueryOutcome.success (some "answer") none) =
      (⟨[welcomeMessage], "   ", false, none⟩, ⟨false, false⟩) :=
  submit_blank_or_loading_noop _ _ _ (Or.inl (by decide))

/-- C3: a submitted query (non-blank input, not already loading) that fails
with status 401 while an unauthorized callback is provided invokes the
callback and stops: the message list ends with the optimistically appended
user message, no assistant error message is appended, and the error banner
is null. -/
theorem submit_401_invokes_callback (st : ChatState) (detail : Option ErrDetail)
    (message : Option String)
    (h1 : jsTrim st.input ≠ "") (h2 : st.loading = false) :
    (handleSubmit st true (QueryOutcome.failure (some 401) detail message)).1.messages
        = st.messages ++ [⟨Role.user, jsTrim st.input, none⟩] ∧
    (handleSubmit st true (QueryOutcome.failure (some 401) detail message)).1.error
        = none ∧
    (handleSubmit st true
        (QueryOutcome.failure (some 401) detail message)).2.calledUnauthorized
        = true := by
  have hg : ¬(jsTrim st.input = "" ∨ st.loading = true) := by
    rintro (hc | hc)
    · exact h1 hc
    · rw [h2] at hc
      cases hc
  rw [handleSubmit_unauthorized_eq st true (some 401) detail message hg ⟨rfl, rfl⟩]
  exact ⟨rfl, rfl, rfl⟩

theorem submit_401_invokes_callback_witness :
    (handleSubmit ⟨[welcomeMessage], "hi", false, some "old"⟩ true
        (QueryOutcome.failure (some 401) none none)).1.messages
        = [welcomeMessage] ++ [⟨Role.user, jsTrim "hi", none⟩] ∧
    (handleSubmit ⟨[welcomeMessage], "hi", false, some "old"⟩ true
        (QueryOutcome.failure (some 401) none none)).1.error = none ∧
    (handleSubmit ⟨[welcomeMessage], "hi", false, some "old"⟩ true
        (QueryOutcome.failure (some 401) none none)).2.calledUnauthorized = true :=
  submit_401_invokes_callback ⟨[welcomeMessage], "hi", false, some "old"⟩ none none
    (by decide) rfl

theorem errItemText_obj_map (msgs : List String) (h : ∀ x ∈ msgs, x ≠ "") :
    (msgs.map fun s => ErrItem.obj (some s)).map errItemText = msgs := by
  induction msgs with
  | nil => rfl
  | cons x xs ih =>
    have hx : x ≠ "" := h x (List.mem_cons_self x xs)
    have hxs : ∀ y ∈ xs, y ≠ "" := fun y hy => h y (List.mem_cons_of_mem x hy)
    simp [errItemText, hx, ih hxs]

/-- C8: a submitted query failing with a status other than 401 appends the
extracted message as an assistant message prefixed `"Error: "` and records
the same message as the error banner; the extracted message is a string
`detail` as-is, and for a `detail` that is a list of validation-error
objects it is their (non-empty) `msg` fields joined. -/
theorem submit_non401_error (st : ChatState) (cb : Bool) (status : Option Nat)
    (detail : Option ErrDetail) (message : Option String)
    (h1 : jsTrim st.input ≠ "") (h2 : st.loading = false)
    (h3 : status ≠ some 401) :
    ((handleSubmit st cb (QueryOutcome.failure status detail message)).1.error
        = some (parseError detail message) ∧
     (handleSubmit st cb (QueryOutcome.failure status detail message)).1.messages
        = st.messages ++
            [⟨Role.user, jsTrim st.input, none⟩,
             ⟨Role.assistant, "Error: " ++ parseError detail message, none⟩]) ∧
    (∀ (s : String) (m : Option String),
      parseError (some (ErrDetail.strDetail s)) m = s) ∧
    (∀ (msgs : List String) (m : Option String), (∀ x ∈ msgs, x ≠ "") →
      parseError (some (ErrDetail.listDetail
          (msgs.map fun s => ErrItem.obj (some s)))) m
        = String.intercalate " " msgs) := by
  have hg : ¬(jsTrim st.input = "" ∨ st.loading = true) := by
    rintro (hc | hc)
    · exact h1 hc
    · rw [h2] at hc
      cases hc
  refine ⟨?_, fun s m => rfl, fun msgs m hm => ?_⟩
  · rw [handleSubmit_error_eq st cb status detail message hg
      (fun hc => h3 hc.1)]
    exact ⟨rfl, rfl⟩
  · simp only [parseError]
    rw [errItemText_obj_map msgs hm]

theorem submit_non401_error_witness :
    ((handleSubmit ⟨[welcomeMessage], "hi", false, none⟩ true
        (QueryOutcome.failure (some 422)
          (some (ErrDetail.strDetail "bad query")) none)).1.error
        = some (parseError (some (ErrDetail.strDetail "bad query")) none) ∧
     (handleSubmit ⟨[welcomeMessage], "hi", false, none⟩ true
        (QueryOutcome.failure (some 422)
          (some (ErrDetail.strDetail "bad query")) none)).1.messages
        = [welcomeMessage] ++
            [⟨Role.user, jsTrim "hi", none⟩,
             ⟨Role.assistant,
               "Error: " ++ parseError (some (ErrDetail.strDetail "bad query")) none,
               none⟩]) ∧
    parseError (some (ErrDetail.listDetail
        (["bad query", "too long"].map fun s => ErrItem.obj (some s)))) none
      = "bad query too long" :=
  ⟨(submit_non401_error ⟨[welcomeMessage], "hi", false, none⟩ true (some 422)
      (some (ErrDetail.strDetail "bad query")) none (by decide) rfl (by decide)).1,
   ((submit_non401_error ⟨[welcomeMessage], "hi", false, none⟩ true (some 422)
      (some (ErrDetail.strDetail "bad query")) none (by decide) rfl
      (by decide)).2.2 ["bad query", "too long"] none (by decide)).trans
     (by decide)⟩

/-- C2 counterexample: a 401 from `/upload` does not remove the stored
token or leave the authenticated view — `FileUpload` never inspects the
status code, so the failure only becomes an error banner. -/
theorem upload_401_keeps_token_cex :
    (appUpload ⟨some "tok", true, ⟨[welcomeMessage], "", false, none⟩, false⟩
        (some [⟨"a.pdf", "application/pdf"⟩])
        (UploadOutcome.failure 401 "Unauthorized" (some "Invalid token"))).token
      = some "tok" ∧
    (appUpload ⟨some "tok", true, ⟨[welcomeMessage], "", false, none⟩, false⟩
        (some [⟨"a.pdf", "application/pdf"⟩])
        (UploadOutcome.failure 401 "Unauthorized" (some "Invalid token"))).authed
      = true ∧
    (appUpload ⟨some "tok", true, ⟨[welcomeMessage], "", false, none⟩, false⟩
        (some [⟨"a.pdf", "application/pdf"⟩])
        (UploadOutcome.failure 401 "Unauthorized" (some "Invalid token"))).chat.error
      = some "Invalid token" := by
  decide

/-- C2 (amended): a 401 from `/query` (on an actually issued request, with
the app-level callback wired) clears the stored token and leaves the
authenticated view; a 401 from `/upload` leaves the token and the
authentication state unchanged. -/
theorem query_401_clears_token_upload_does_not (a : AppState)
    (detail : Option ErrDetail) (message : Option String)
    (h1 : jsTrim a.chat.input ≠ "") (h2 : a.chat.loading = false) :
    ((appSubmit a (QueryOutcome.failure (some 401) detail message)).token = none ∧
     (appSubmit a (QueryOutcome.failure (some 401) detail message)).authed = false) ∧
    (∀ (files : Option (List JsFile)) (statusText : String) (d : Option String),
      (appUpload a files (UploadOutcome.failure 401 statusText d)).token
        = a.token ∧
      (appUpload a files (UploadOutcome.failure 401 statusText d)).authed
        = a.authed) := by
  have hg : ¬(jsTrim a.chat.input = "" ∨ a.chat.loading = true) := by
    rintro (hc | hc)
    · exact h1 hc
    · rw [h2] at hc
      cases hc
  constructor
  · simp only [appSubmit]
    rw [handleSubmit_unauthorized_eq a.chat true (some 401) detail message hg
      ⟨rfl, rfl⟩]
    exact ⟨rfl, rfl⟩
  · intro files statusText d
    cases hact : uploadAction files a.token with
    | noop => simp [appUpload, hact]
    | rejected m => simp [appUpload, hact]
    | post fs hd => simp [appUpload, hact]

theorem query_401_clears_token_upload_does_not_witness :
    ((appSubmit ⟨some "tok", true, ⟨[welcomeMessage], "hi", false, none⟩, false⟩
        (QueryOutcome.failure (some 401) none none)).token = none ∧
     (appSubmit ⟨some "tok", true, ⟨[welcomeMessage], "hi", false, none⟩, false⟩
        (QueryOutcome.failure (some 401) none none)).authed = false) ∧
    ((appUpload ⟨some "tok", true, ⟨[welcomeMessage], "hi", false, none⟩, false⟩
        (some [⟨"a.pdf", "application/pdf"⟩])
        (UploadOutcome.failure 401 "Unauthorized" none)).token = some "tok" ∧
     (appUpload ⟨some "tok", true, ⟨[welcomeMessage], "hi", false, none⟩, false⟩
        (some [⟨"a.pdf", "application/pdf"⟩])
        (UploadOutcome.failure 401 "Unauthorized" none)).authed = true) :=
  ⟨(query_401_clears_token_upload_does_not
      ⟨some "tok", true, ⟨[welcomeMessage], "hi", false, none⟩, false⟩
      none none (by decide) rfl).1,
   (query_401_clears_token_upload_does_not
      ⟨some "tok", true, ⟨[welcomeMessage], "hi", false, none⟩, false⟩
      none none (by decide) rfl).2
     (some [⟨"a.pdf", "application/pdf"⟩]) "Unauthorized" none⟩

/-- C6 counterexample: an empty input set contains no accepted file, yet
the operation is a silent no-op — it reports no validation error (and
issues no request). -/
theorem upload_empty_set_cex :
    uploadAction (some ([] : List JsFile)) (some "tok") = UploadAction.noop ∧
    UploadAction.noop ≠ UploadAction.rejected UPLOAD_VALIDATION_ERROR :=
  ⟨rfl, by decide⟩

/-- C6 (amended): a file is accepted iff its MIME type is a PDF/DOCX/DOC
type or its lowercased filename extension is `pdf`, `docx` or `doc`
(`report.PDF` with empty MIME type accepted, `notes.txt` rejected); and
when a non-empty input set contains no accepted file, the operation reports
the validation error and issues no network request. -/
theorem upload_filter_accepts_iff :
    (∀ f : JsFile, isValidFile f = true ↔
      (f.type ∈ supportedTypes ∨ fileExt f = some "pdf" ∨
        fileExt f = some "docx" ∨ fileExt f = some "doc")) ∧
    isValidFile ⟨"report.PDF", ""⟩ = true ∧
    isValidFile ⟨"notes.txt", ""⟩ = false ∧
    (∀ (fs : List JsFile) (token : Option String), fs ≠ [] →
      (∀ f ∈ fs, isValidFile f = false) →
      uploadAction (some fs) token
        = UploadAction.rejected UPLOAD_VALIDATION_ERROR) := by
  refine ⟨fun f => ?_, by decide, by decide, fun fs token hne hall => ?_⟩
  · simp [isValidFile, List.elem_iff]
  · have hlen : ¬fs.length = 0 := fun hc => hne (List.length_eq_zero.mp hc)
    have hfil : fs.filter isValidFile = [] :=
      List.filter_eq_nil_iff.mpr fun f hf => by simp [hall f hf]
    simp [uploadAction, hlen, hfil]

theorem upload_filter_accepts_iff_witness :
    uploadAction (some [⟨"notes.txt", ""⟩]) (some "tok")
      = UploadAction.rejected UPLOAD_VALIDATION_ERROR :=
  upload_filter_accepts_iff.2.2.2 [⟨"notes.txt", ""⟩] (some "tok")
    (by decide) (by decide)

/-- C7 counterexample: with no stored token, the POST to `/upload` still
carries an `Authorization` header — the literal `"Bearer null"` — rather
than no bearer token. -/
theorem upload_header_no_token_cex :
    uploadAuthHeader (uploadAction (some [⟨"report.PDF", ""⟩]) none)
      = some "Bearer null" := by
  decide

/-- C7 (amended): whenever the upload issues a request, it attaches the
`Authorization` header unconditionally: `"Bearer <token>"` when a token is
stored, and the literal `"Bearer null"` when none is. -/
theorem upload_always_sends_bearer (fs : List JsFile) (token : Option String)
    (h1 : fs ≠ []) (h2 : fs.filter isValidFile ≠ []) :
    uploadAction (some fs) token
      = UploadAction.post (fs.filter isValidFile)
          ("Bearer " ++ token.getD "null") := by
  simp only [uploadAction]
  rw [if_neg fun hc => h1 (List.length_eq_zero.mp hc)]
  rw [if_neg fun hc => h2 (List.length_eq_zero.mp hc)]
  cases token <;> rfl

theorem upload_always_sends_bearer_witness :
    uploadAction (some [⟨"report.PDF", ""⟩]) none
      = UploadAction.post [⟨"report.PDF", ""⟩] "Bearer null" :=
  (upload_always_sends_bearer [⟨"report.PDF", ""⟩] none (by decide)
    (by decide)).trans (by decide)

theorem loadMessagesFromStorage_ne_nil (sv : StoredValue) :
    loadMessagesFromStorage sv ≠ [] := by
  cases sv with
  | arrayValue ms =>
      simp only [loadMessagesFromStorage]
      split
      · exact List.ne_nil_of_length_pos (by omega)
      · simp
  | absent => simp [loadMessagesFromStorage]
  | malformed => simp [loadMessagesFromStorage]
  | nonArrayValue => simp [loadMessagesFromStorage]

theorem handleSubmit_messages_append (st : ChatState) (cb : Bool)
    (o : QueryOutcome) :
    ∃ tail, (handleSubmit st cb o).1.messages = st.messages ++ tail := by
  by_cases hg : jsTrim st.input = "" ∨ st.loading = true
  · rw [handleSubmit_guard_eq st cb o hg]
    exact ⟨[], by simp⟩
  · cases o with
    | success answer sources =>
        rw [handleSubmit_success_eq st cb answer sources hg]
        exact ⟨_, rfl⟩
    | failure status detail message =>
        by_cases h4 : status = some 401 ∧ cb = true
        · rw [handleSubmit_unauthorized_eq st cb status detail message hg h4]
          exact ⟨_, rfl⟩
        · rw [handleSubmit_error_eq st cb status detail message hg h4]
          exact ⟨_, rfl⟩

theorem appSubmit_messages_append (a : AppState) (o : QueryOutcome) :
    ∃ tail, (appSubmit a o).chat.messages = a.chat.messages ++ tail := by
  obtain ⟨tail, ht⟩ := handleSubmit_messages_append a.chat true o
  simp only [appSubmit, handleUnauthorized]
  split
  · exact ⟨tail, ht⟩
  · exact ⟨tail, ht⟩

theorem appUpload_messages_cases (a : AppState) (files : Option (List JsFile))
    (outcome : UploadOutcome) :
    (appUpload a files outcome).chat.messages = a.chat.messages ∨
    (appUpload a files outcome).chat.messages
      = [⟨Role.assistant, UPLOAD_SUCCESS_TEXT, none⟩] := by
  cases hact : uploadAction files a.token with
  | noop => exact Or.inl (by simp [appUpload, hact])
  | rejected m => exact Or.inl (by simp [appUpload, hact])
  | post fs hd =>
      cases outcome with
      | success r => exact Or.inr (by simp [appUpload, hact])
      | failure s stx d => exact Or.inl (by simp [appUpload, hact])

/-- C10: the message list is never empty — session initialization always
returns at least one message, submit only appends, a completed upload and a
documents reset each replace the list with a single assistant message, and
so every reachable app state has a non-empty message list. -/
theorem messages_never_empty :
    (∀ sv : StoredValue, loadMessagesFromStorage sv ≠ []) ∧
    (∀ (st : ChatState) (cb : Bool) (o : QueryOutcome),
      ∃ tail, (handleSubmit st cb o).1.messages = st.messages ++ tail) ∧
    (∀ (a : AppState) (files : Option (List JsFile)) (r : UploadResult),
      (appUpload a files (UploadOutcome.success r)).chat.messages
          = a.chat.messages ∨
      (appUpload a files (UploadOutcome.success r)).chat.messages
          = [⟨Role.assistant, UPLOAD_SUCCESS_TEXT, none⟩]) ∧
    (∀ a : AppState, (handleResetDocs a).chat.messages = [welcomeMessage]) ∧
    (∀ a : AppState, Reachable a → a.chat.messages ≠ []) := by
  refine ⟨loadMessagesFromStorage_ne_nil, handleSubmit_messages_append,
    fun a files r => appUpload_messages_cases a files _,
    fun a => rfl, fun a h => ?_⟩
  induction h with
  | init sv token => exact loadMessagesFromStorage_ne_nil sv
  | step e hr ih =>
      rename_i a'
      cases e with
      | setInputEv s => simpa [appStep] using ih
      | submitEv o =>
          obtain ⟨tail, ht⟩ := appSubmit_messages_append a' o
          simp only [appStep]
          rw [ht]
          intro hc
          exact ih (List.append_eq_nil.mp hc).1
      | uploadEv files outcome =>
          rcases appUpload_messages_cases a' files outcome with hm | hm
          · simp only [appStep]
            rw [hm]
            exact ih
          · simp only [appStep]
            rw [hm]
            simp
      | resetDocsEv => simp [appStep, handleResetDocs]
      | logoutEv => simpa [appStep, handleUnauthorized] using ih

theorem messages_never_empty_witness :
    (initialAppState StoredValue.absent none).chat.messages ≠ [] :=
  messages_never_empty.2.2.2.2 (initialAppState StoredValue.absent none)
    (Reachable.init StoredValue.absent none)

end ShowcaseAgent
